import Mathlib

/-!
Shallow embedding of the chess-arbiter program (`chess_arbiter.py`): the
match-state data model, think-time recording, daily-activity statistics,
move resolution (`play_move`), the per-ply body of the progression loop
(`game_loop`), and the end-of-game bookkeeping.  The chess library used by
the program (`python-chess`) is an external collaborator; it is abstracted
as a `BoardAPI` record of operations, never interpreted.  Python integers
are embedded as `Nat` (all quantities involved are non-negative); Python
integer division `//` is `Nat` division.
-/

namespace ChessArbiter

/-! ## Think-time statistics (`_record_think`, lines 21-32) -/

/-- One timestamped entry of a side's think-time history:
`{"ts": ..., "ms": ...}` (line 27). -/
structure HistEntry where
  ts : Nat
  ms : Nat
deriving DecidableEq, Repr

/-- Per-side think-time statistics: `{"avg", "total", "count", "history"}`
(lines 48-49). -/
structure ThinkStat where
  total : Nat
  count : Nat
  avg : Nat
  history : List HistEntry
deriving DecidableEq, Repr

/-- Initial per-side think-time record (line 48):
`{"avg": 0, "total": 0, "count": 0, "history": []}`. -/
def think_init : ThinkStat := { total := 0, count := 0, avg := 0, history := [] }

/-- The 30-day retention window in milliseconds: `30 * 24 * 3600 * 1000`
(line 30). -/
def THIRTY_DAYS_MS : Nat := 30 * 24 * 3600 * 1000

/-- Embedding of `_record_think` (lines 21-32) acting on one side's record.
`elapsed_ms` is the measured latency, `now_ms` the current wall clock in
milliseconds (`int(time.time() * 1000)`).  The cutoff `now - 30 days` uses
truncated subtraction; since every stored timestamp is a `Nat`, the filter
`e["ts"] >= cutoff` agrees with the Python signed comparison.  The trailing
`save_state()` is persistence glue, modelled by the callers that count saves. -/
def record_think (t : ThinkStat) (elapsed_ms now_ms : Nat) : ThinkStat :=
  let total := t.total + elapsed_ms
  let count := t.count + 1
  let avg := total / count
  let hist := t.history ++ [{ ts := now_ms, ms := elapsed_ms }]
  let cutoff := now_ms - THIRTY_DAYS_MS
  { total := total, count := count, avg := avg,
    history := hist.filter (fun e => cutoff ≤ e.ts) }

/-- A sequence of `_record_think` calls on one side's record, each given as a
pair `(elapsed_ms, now_ms)`, applied in order. -/
def record_many (t : ThinkStat) : List (Nat × Nat) → ThinkStat
  | [] => t
  | (e, n) :: rest => record_many (record_think t e n) rest

/-! ## Daily activity (`update_daily_data`, lines 160-168) -/

/-- One entry of `state["daily_data"]`: `{"label": ..., "count": ...}`
(line 166). -/
structure DayEntry where
  label : String
  count : Nat
deriving DecidableEq, Repr

/-- The growth step of `update_daily_data` (lines 163-166): if the list is
non-empty and its last entry carries today's label, bump that entry's
count, else append a fresh entry for today. -/
def daily_grow (daily : List DayEntry) (today : String) : List DayEntry :=
  match daily.getLast? with
  | some e =>
      if e.label = today then
        daily.dropLast ++ [{ label := e.label, count := e.count + 1 }]
      else
        daily ++ [{ label := today, count := 1 }]
  | none => daily ++ [{ label := today, count := 1 }]

/-- Embedding of `update_daily_data` (lines 160-168) on the `daily_data`
list, with the current day's label (`"%d/%m"` of today) passed as `today`:
the growth step followed by truncation to the last 14 entries
(`daily[-14:]`, line 168). -/
def update_daily_data (daily : List DayEntry) (today : String) : List DayEntry :=
  (daily_grow daily today).drop ((daily_grow daily today).length - 14)

/-- Repeated `update_daily_data` calls, one per completed game, with the
day labels of the games in order. -/
def update_daily_many (daily : List DayEntry) : List String → List DayEntry
  | [] => daily
  | t :: ts => update_daily_many (update_daily_data daily t) ts

/-! ## Match state (`state`, lines 35-51) -/

/-- The `state["last_move"]` payload: `{"from": ..., "to": ...}` (line 209). -/
structure LastMove where
  fromSq : String
  toSq : String
deriving DecidableEq, Repr

/-- The `state["scores"]` mapping (line 39). -/
structure Scores where
  claude : Nat
  gpt : Nat
  draws : Nat
deriving DecidableEq, Repr

/-- One entry of `state["moves"]`: `{"san": ..., "color": ...}` (line 211). -/
structure MoveEntry where
  san : String
  color : String
deriving DecidableEq, Repr

/-- The fields of the global `state` dict touched by the game loop
(lines 35-51).  `start_date` and the two think-time records are carried
separately by the functions that use them. -/
structure ArbState where
  fen : String
  moves : List MoveEntry
  game_number : Nat
  scores : Scores
  total_moves : Nat
  turn : String
  last_move : Option LastMove
  daily_data : List DayEntry
  status : String
  next_game_at : Option Nat
deriving DecidableEq, Repr

/-- The constant `chess.STARTING_FEN` of the board library. -/
def STARTING_FEN : String :=
  "rnbqkbnr/pppppppp/8/8/8/8/PPPPPPPP/RNBQKBNR w KQkq - 0 1"

/-- Sum of the three score counters. -/
def scoreSum (s : Scores) : Nat := s.claude + s.gpt + s.draws

/-- Embedding of the end-of-game block of `game_loop` (lines 224-246):
score update from `board.result()`, daily-activity roll for `today`,
`game_number` increment, and the reset of `moves`, `fen`, `last_move`
and `status`. -/
def finish_game (s : ArbState) (result today : String) : ArbState :=
  let scores :=
    if result = "1-0" then { s.scores with claude := s.scores.claude + 1 }
    else if result = "0-1" then { s.scores with gpt := s.scores.gpt + 1 }
    else { s.scores with draws := s.scores.draws + 1 }
  { s with
    scores := scores
    daily_data := update_daily_data s.daily_data today
    game_number := s.game_number + 1
    moves := []
    fen := STARTING_FEN
    last_move := none
    status := "finished" }

/-- A sequence of completed games, each given by its `board.result()` string
and its day label, folded through `finish_game` in order. -/
def finish_many (s : ArbState) : List (String × String) → ArbState
  | [] => s
  | (r, d) :: rest => finish_many (finish_game s r d) rest

/-! ## Board adapter and move source

The `chess` library is an external collaborator; `BoardAPI` abstracts the
operations the arbiter calls on it.  `σ` is the board-state type, `μ` the
move type.  `parse_san` returns `none` where `board.parse_san` raises;
`set_fen` returns `none` where `board.set_fen` raises. -/

structure BoardAPI (σ μ : Type) where
  legal_moves : σ → List μ
  parse_san : σ → String → Option μ
  san : σ → μ → String
  uci : μ → String
  push : σ → μ → σ
  fen : σ → String
  turn_white : σ → Bool
  is_game_over : σ → Bool
  result : σ → String
  starting : σ
  set_fen : String → Option σ

/-- One answered move-source query (`ask_claude` / `ask_gpt`, lines 86-125):
the proposal text returned by the model, the measured `elapsed_ms`, and the
wall clock `now_ms` at which `_record_think` stamps the history entry. -/
structure Query where
  text : String
  elapsed : Nat
  now : Nat
deriving DecidableEq, Repr

/-- Python `str.strip()` on a character list: drop whitespace from both
ends. -/
def py_strip (l : List Char) : List Char :=
  ((l.dropWhile Char.isWhitespace).reverse.dropWhile Char.isWhitespace).reverse

/-- Embedding of the response cleanup on line 133:
`move_san.replace("?", "").replace("!", "").strip()`.  Replacing a
single-character pattern by the empty string deletes every occurrence of
that character, so the two `replace` calls filter out all `?` and `!`;
`strip()` then removes surrounding whitespace.  No other character (in
particular neither `+` nor `#`) is touched. -/
def clean_move (s : String) : String :=
  ⟨py_strip (s.data.filter (fun c => !(c = '?' || c = '!')))⟩

/-- One parse attempt of `play_move` (lines 131-135): clean the text, parse
it as SAN, and accept the move only if it is a member of the legal-move
list; `none` covers both a parse exception and the membership test failing. -/
def attempt_parse [DecidableEq μ] (api : BoardAPI σ μ) (b : σ) (text : String) :
    Option μ :=
  match api.parse_san b (clean_move text) with
  | some m => if m ∈ api.legal_moves b then some m else none
  | none => none

/-- Why `play_move` gave up on a caller: either a re-query of the move
source raised (a transport failure escaping to `game_loop`'s handler), or
the random fallback found an empty legal-move list (`random.choice` raises
`IndexError`).  The payload carries the think-time record and save count as
they stood when the exception escaped, since `_record_think` mutations
already happened. -/
inductive PlayErr where
  | sourceFail (think : ThinkStat) (saves : Nat) (queriesMade : Nat)
  | emptyLegal (think : ThinkStat) (saves : Nat) (queriesMade : Nat)
deriving DecidableEq, Repr

/-- The observable outcome of a successful `play_move` call (lines 128-157):
the returned triple `(san, from_sq, to_sq)`, the board after `push`, the
accepted move itself, plus instrumentation the claims speak about: which
texts were submitted to a parse attempt (in order), how many re-queries of
the move source were issued, whether the random fallback was used, and the
querying side's think-time record and `save_state` count after the call. -/
structure PlayRecord (σ μ : Type) where
  san : String
  fromSq : String
  toSq : String
  board : σ
  applied : μ
  parsedTexts : List String
  queriesMade : Nat
  fallbackUsed : Bool
  think : ThinkStat
  saves : Nat
deriving DecidableEq, Repr

/-- The retry loop of `play_move` (lines 130-157).  `fuel` is the number of
parse attempts still allowed (`max_retries - attempt`); `text` the current
proposal; `src i` the answer to the `i`-th re-query of the move source
(whichever side is to move, since the board does not change across
retries); `randIdx` resolves `random.choice` by indexing the legal-move
list modulo its length.  On a failed attempt the source is re-queried —
also after the final attempt, whose fresh proposal is then discarded when
`fuel` reaches `0` and the fallback runs. -/
def play_move_aux [DecidableEq μ] (api : BoardAPI σ μ) (b : σ)
    (src : Nat → Except Unit Query) (randIdx : Nat) :
    Nat → String → Nat → List String → ThinkStat → Nat →
      Except PlayErr (PlayRecord σ μ)
  | 0, _, qMade, parsed, think, saves =>
      let legal := api.legal_moves b
      match legal[randIdx % legal.length]? with
      | none => .error (.emptyLegal think saves qMade)
      | some m =>
          .ok { san := api.san b m
                fromSq := (api.uci m).take 2
                toSq := ((api.uci m).drop 2).take 2
                board := api.push b m
                applied := m
                parsedTexts := parsed
                queriesMade := qMade
                fallbackUsed := true
                think := think
                saves := saves }
  | fuel + 1, text, qMade, parsed, think, saves =>
      match attempt_parse api b text with
      | some m =>
          .ok { san := clean_move text
                fromSq := (api.uci m).take 2
                toSq := ((api.uci m).drop 2).take 2
                board := api.push b m
                applied := m
                parsedTexts := parsed ++ [text]
                queriesMade := qMade
                fallbackUsed := false
                think := think
                saves := saves }
      | none =>
          match src qMade with
          | .error _ => .error (.sourceFail think saves qMade)
          | .ok q =>
              play_move_aux api b src randIdx fuel q.text (qMade + 1)
                (parsed ++ [text]) (record_think think q.elapsed q.now) (saves + 1)

/-- Embedding of `play_move(board, move_san, max_retries=3)` (lines
128-157): three parse attempts starting from the caller's proposal `text`,
re-querying the move source between attempts, then the random fallback. -/
def play_move [DecidableEq μ] (api : BoardAPI σ μ) (b : σ)
    (src : Nat → Except Unit Query) (randIdx : Nat) (text : String)
    (think : ThinkStat) : Except PlayErr (PlayRecord σ μ) :=
  play_move_aux api b src randIdx 3 text 0 [] think 0

/-! ## The per-ply body of `game_loop` (lines 188-221) -/

/-- The backoff `time.sleep(10)` after an API error (line 217), in seconds. -/
def API_ERROR_BACKOFF_SECONDS : Nat := 10

/-- The state update on lines 193-195, performed before the move source is
queried: `state["turn"]` and `state["fen"]` are synced from the board and
persisted. -/
def sync_state (api : BoardAPI σ μ) (b : σ) (s : ArbState) : ArbState :=
  { s with
    turn := if api.turn_white b then "white" else "black"
    fen := api.fen b }

/-- Result of one iteration of the inner `while not board.is_game_over()`
loop: the match state, the board, the moving side's think-time record, and
whether a ply was completed (`moved = false` means the `except` branch ran:
log, back off, `continue` — the same ply is retried). -/
structure IterResult (σ : Type) where
  st : ArbState
  board : σ
  think : ThinkStat
  moved : Bool
deriving Repr

/-- Embedding of one iteration of the ply loop (lines 188-221).  `src 0` is
the initial `ask_claude`/`ask_gpt` call; `src (i+1)` answers the `i`-th
re-query issued inside `play_move`.  A transport failure anywhere in the
`try` block lands in the `except` branch (lines 215-218), which leaves the
state as `sync_state` produced it. -/
def loop_iter [DecidableEq μ] (api : BoardAPI σ μ) (b : σ) (s : ArbState)
    (src : Nat → Except Unit Query) (randIdx : Nat) (think : ThinkStat) :
    IterResult σ :=
  let is_white := api.turn_white b
  let s1 := sync_state api b s
  match src 0 with
  | .error _ => { st := s1, board := b, think := think, moved := false }
  | .ok q =>
      let think1 := record_think think q.elapsed q.now
      match play_move api b (fun i => src (i + 1)) randIdx q.text think1 with
      | .error e =>
          let thinkAfter :=
            match e with
            | .sourceFail t _ _ => t
            | .emptyLegal t _ _ => t
          { st := s1, board := b, think := thinkAfter, moved := false }
      | .ok r =>
          { st := { s1 with
                    fen := api.fen r.board
                    last_move := some { fromSq := r.fromSq, toSq := r.toSq }
                    total_moves := s1.total_moves + 1
                    moves := s1.moves ++
                      [{ san := r.san, color := if is_white then "white" else "black" }]
                    turn := if is_white then "black" else "white" }
            board := r.board
            think := r.think
            moved := true }

/-- Embedding of the resume logic at the top of `game_loop` (lines
176-184): start from a fresh board; if the persisted FEN differs from the
starting position and the status is `"playing"`, reconstruct the board from
the FEN, falling back to the fresh board when `set_fen` raises. -/
def resume_board (api : BoardAPI σ μ) (fen status : String) : σ :=
  if fen ≠ STARTING_FEN ∧ status = "playing" then
    match api.set_fen fen with
    | some b => b
    | none => api.starting
  else api.starting

/-! ## A concrete toy board adapter, used to instantiate the theorems -/

/-- A miniature board adapter over `σ = List String` (the moves pushed so
far, in UCI form) and `μ = String` (a UCI string), used as a concrete
instance of `BoardAPI` when evaluating the theorems below. -/
def toyAPI : BoardAPI (List String) String where
  legal_moves _ := ["e2e4", "d2d4"]
  parse_san _ s := if s = "e4" then some "e2e4" else if s = "d4" then some "d2d4" else none
  san _ m := if m = "e2e4" then "e4" else "d4"
  uci m := m
  push b m := b ++ [m]
  fen b := String.join b
  turn_white b := b.length % 2 = 0
  is_game_over _ := false
  result _ := "*"
  starting := []
  set_fen f := if f = "resume-ok" then some ["e2e4"] else none

/-- A move source that always answers with the same query. -/
def constSrc (q : Query) : Nat → Except Unit Query := fun _ => .ok q

/-- A move source whose transport always fails. -/
def failSrc : Nat → Except Unit Query := fun _ => .error ()

/-- A move source answering three distinct unparsable proposals, used to
drive the all-attempts-rejected path on the toy adapter. -/
def srcABC : Nat → Except Unit Query := fun i =>
  if i = 0 then .ok { text := "ax", elapsed := 1, now := 10 }
  else if i = 1 then .ok { text := "bx", elapsed := 2, now := 20 }
  else .ok { text := "cx", elapsed := 3, now := 30 }

/-- A plain starting match state, used to instantiate the loop theorems. -/
def sampleState : ArbState :=
  { fen := STARTING_FEN
    moves := []
    game_number := 1
    scores := { claude := 0, gpt := 0, draws := 0 }
    total_moves := 0
    turn := "white"
    last_move := none
    daily_data := []
    status := "playing"
    next_game_at := none }

/-! ## Theorems -/

/-- C3: the spec says normalization strips surrounding whitespace and the
glyphs `+`, `#`, `?`, `!` before parsing, and the code's own comment (line
132) promises the same; the cleanup on line 133 only removes `?` and `!`
and strips whitespace.  Evaluating it on the failing inputs `"e4+"` and
`"Qh5#"` shows the check and mate glyphs survive, while `?`, `!` and
surrounding whitespace are removed as described. -/
theorem c3_clean_move_keeps_check_and_mate_glyphs :
    clean_move "e4+" = "e4+" ∧ clean_move "Qh5#" = "Qh5#" ∧
    clean_move "e4+" ≠ "e4" ∧ clean_move " e4?! " = "e4" := by decide

/-- Auxiliary: `record_many` adds one to `count` per recorded call. -/
theorem record_many_count : ∀ (l : List (Nat × Nat)) (t : ThinkStat),
    (record_many t l).count = t.count + l.length
  | [], _ => rfl
  | (e, n) :: rest, t => by
      have ih := record_many_count rest (record_think t e n)
      rw [record_many, ih]
      show t.count + 1 + rest.length = t.count + (rest.length + 1)
      omega

/-- Auxiliary: the `avg = total // count` invariant survives any sequence
of recorded calls, because each call recomputes `avg` from the updated
`total` and `count`. -/
theorem record_many_avg : ∀ (l : List (Nat × Nat)) (t : ThinkStat),
    t.avg = t.total / t.count →
    (record_many t l).avg = (record_many t l).total / (record_many t l).count
  | [], _, h => h
  | (_, _) :: rest, t, _ => record_many_avg rest (record_think t _ _) rfl

/-- C6: after any sequence of `_record_think` calls on a side's record
starting from its initial value, `avg` equals `total` integer-divided by
`count`, and `count` equals the number of calls made. -/
theorem c6_record_think_avg_and_count (l : List (Nat × Nat)) :
    (record_many think_init l).avg
      = (record_many think_init l).total / (record_many think_init l).count ∧
    (record_many think_init l).count = l.length := by
  refine ⟨record_many_avg l think_init rfl, ?_⟩
  have := record_many_count l think_init
  simpa [think_init] using this

/-- C7: after a `_record_think` call at wall clock `now`, the history has
no entry older than 30 days before `now`, every prior entry within the
trailing 30 days is retained, and the entry just recorded is present. -/
theorem c7_history_window (t : ThinkStat) (e now : Nat) :
    (∀ h ∈ (record_think t e now).history, now - THIRTY_DAYS_MS ≤ h.ts) ∧
    (∀ h ∈ t.history, now - THIRTY_DAYS_MS ≤ h.ts →
      h ∈ (record_think t e now).history) ∧
    ({ ts := now, ms := e } : HistEntry) ∈ (record_think t e now).history := by
  refine ⟨?_, ?_, ?_⟩
  · intro h hm
    simp only [record_think, List.mem_filter, decide_eq_true_eq] at hm
    exact hm.2
  · intro h hm hts
    simp only [record_think, List.mem_filter, List.mem_append, decide_eq_true_eq]
    exact ⟨Or.inl hm, hts⟩
  · simp only [record_think, List.mem_filter, List.mem_append, decide_eq_true_eq]
    exact ⟨Or.inr (by simp), Nat.sub_le _ _⟩

/-- Auxiliary: `finish_game` increments exactly one score counter by one,
the one selected by the `result` string. -/
theorem finish_game_scores (s : ArbState) (r d : String) :
    ((finish_game s r d).scores.claude = s.scores.claude + 1 ∧
      (finish_game s r d).scores.gpt = s.scores.gpt ∧
      (finish_game s r d).scores.draws = s.scores.draws) ∨
    ((finish_game s r d).scores.claude = s.scores.claude ∧
      (finish_game s r d).scores.gpt = s.scores.gpt + 1 ∧
      (finish_game s r d).scores.draws = s.scores.draws) ∨
    ((finish_game s r d).scores.claude = s.scores.claude ∧
      (finish_game s r d).scores.gpt = s.scores.gpt ∧
      (finish_game s r d).scores.draws = s.scores.draws + 1) := by
  unfold finish_game
  split_ifs <;> simp

/-- Auxiliary: one completed game adds exactly one to the score sum. -/
theorem finish_game_sum (s : ArbState) (r d : String) :
    scoreSum (finish_game s r d).scores = scoreSum s.scores + 1 := by
  rcases finish_game_scores s r d with h | h | h <;>
    · unfold scoreSum
      rw [h.1, h.2.1, h.2.2]
      omega

/-- Auxiliary: `finish_game` increments `game_number` by one. -/
theorem finish_game_number (s : ArbState) (r d : String) :
    (finish_game s r d).game_number = s.game_number + 1 := by
  unfold finish_game
  split_ifs <;> rfl

/-- Auxiliary: over a list of completed games, the score sum grows by the
number of games and `game_number` by the same amount. -/
theorem finish_many_sum : ∀ (l : List (String × String)) (s : ArbState),
    scoreSum (finish_many s l).scores = scoreSum s.scores + l.length ∧
    (finish_many s l).game_number = s.game_number + l.length
  | [], _ => ⟨rfl, rfl⟩
  | (r, d) :: rest, s => by
      have ih := finish_many_sum rest (finish_game s r d)
      rw [finish_many]
      refine ⟨?_, ?_⟩
      · rw [ih.1, finish_game_sum]
        show scoreSum s.scores + 1 + rest.length = scoreSum s.scores + (rest.length + 1)
        omega
      · rw [ih.2, finish_game_number]
        show s.game_number + 1 + rest.length = s.game_number + (rest.length + 1)
        omega

/-- C4: every completed game increments exactly one of the three score
counters by exactly 1 and `game_number` by exactly 1; no counter decreases;
and over any sequence of `N` completed games the score sum grows by `N` and
`game_number` by `N`. -/
theorem c4_scores_and_game_number (s : ArbState) (r d : String)
    (l : List (String × String)) :
    (((finish_game s r d).scores.claude = s.scores.claude + 1 ∧
        (finish_game s r d).scores.gpt = s.scores.gpt ∧
        (finish_game s r d).scores.draws = s.scores.draws) ∨
      ((finish_game s r d).scores.claude = s.scores.claude ∧
        (finish_game s r d).scores.gpt = s.scores.gpt + 1 ∧
        (finish_game s r d).scores.draws = s.scores.draws) ∨
      ((finish_game s r d).scores.claude = s.scores.claude ∧
        (finish_game s r d).scores.gpt = s.scores.gpt ∧
        (finish_game s r d).scores.draws = s.scores.draws + 1)) ∧
    (finish_game s r d).game_number = s.game_number + 1 ∧
    s.scores.claude ≤ (finish_game s r d).scores.claude ∧
    s.scores.gpt ≤ (finish_game s r d).scores.gpt ∧
    s.scores.draws ≤ (finish_game s r d).scores.draws ∧
    scoreSum (finish_many s l).scores = scoreSum s.scores + l.length ∧
    (finish_many s l).game_number = s.game_number + l.length := by
  have hsc := finish_game_scores s r d
  refine ⟨hsc, finish_game_number s r d, ?_, ?_, ?_,
    (finish_many_sum l s).1, (finish_many_sum l s).2⟩ <;>
    rcases hsc with h | h | h <;> omega

/-- C9: on loop entry with a persisted FEN different from the starting
position and an in-progress status, the board is reconstructed from the
FEN when `set_fen` succeeds, and falls back to a fresh starting board when
it fails — `resume_board` is total, so no exception escapes. -/
theorem c9_resume {σ μ : Type} (api : BoardAPI σ μ) (fen status : String)
    (hf : fen ≠ STARTING_FEN) (hs : status = "playing") :
    (∃ b, api.set_fen fen = some b ∧ resume_board api fen status = b) ∨
    (api.set_fen fen = none ∧ resume_board api fen status = api.starting) := by
  unfold resume_board
  rw [if_pos ⟨hf, hs⟩]
  rcases h : api.set_fen fen with _ | b
  · exact Or.inr ⟨rfl, rfl⟩
  · exact Or.inl ⟨b, rfl, rfl⟩

/-- Witness for C9 at the toy adapter: the FEN `"bad"` differs from the
starting FEN, its reconstruction fails, and the resume falls back to the
fresh starting board. -/
theorem c9_resume_witness :
    (∃ b, toyAPI.set_fen "bad" = some b ∧
      resume_board toyAPI "bad" "playing" = b) ∨
    (toyAPI.set_fen "bad" = none ∧
      resume_board toyAPI "bad" "playing" = toyAPI.starting) :=
  c9_resume toyAPI "bad" "playing" (by decide) rfl

/-- Auxiliary: dropping all but the last 14 elements leaves at most 14. -/
theorem drop_to_14_length {α : Type} (l : List α) :
    (l.drop (l.length - 14)).length ≤ 14 := by
  rw [List.length_drop]
  omega

/-- Auxiliary: the truncation step of `update_daily_data` bounds the list
at 14 entries. -/
theorem update_daily_length (d : List DayEntry) (t : String) :
    (update_daily_data d t).length ≤ 14 :=
  drop_to_14_length (daily_grow d t)

/-- Auxiliary: bumping the last entry's count leaves the label sequence
unchanged. -/
theorem daily_grow_bump_labels (d : List DayEntry) (e : DayEntry)
    (hlast : d.getLast? = some e) :
    (d.dropLast ++ [({ label := e.label, count := e.count + 1 } : DayEntry)]).map
        DayEntry.label
      = d.map DayEntry.label := by
  conv_rhs =>
    rw [← List.dropLast_append_getLast? e (Option.mem_def.mpr hlast)]
  simp

/-- Auxiliary: the growth step preserves distinctness of adjacent labels. -/
theorem daily_grow_chain (d : List DayEntry) (t : String)
    (h : List.Chain' (fun a b => a.label ≠ b.label) d) :
    List.Chain' (fun a b => a.label ≠ b.label) (daily_grow d t) := by
  unfold daily_grow
  rcases hlast : d.getLast? with _ | e
  · have hd : d = [] := List.getLast?_eq_none_iff.mp hlast
    subst hd
    exact List.chain'_singleton _
  · dsimp only
    by_cases he : e.label = t
    · rw [if_pos he]
      have h2 : List.Chain' Ne (d.map DayEntry.label) := (List.chain'_map _).mpr h
      have h3 : List.Chain' Ne
          ((d.dropLast ++ [({ label := e.label, count := e.count + 1 } : DayEntry)]).map
            DayEntry.label) := by
        rw [daily_grow_bump_labels d e hlast]
        exact h2
      exact (List.chain'_map _).mp h3
    · rw [if_neg he]
      refine h.append (List.chain'_singleton _) ?_
      intro x hx y hy
      have hx2 : x = e := by
        rw [Option.mem_def, hlast] at hx
        exact (Option.some_inj.mp hx).symm
      have hy2 : y = { label := t, count := 1 } := by
        rw [Option.mem_def] at hy
        exact (Option.some_inj.mp hy).symm
      subst hx2
      subst hy2
      exact he

/-- Auxiliary: the labels produced by the growth step extend, as a
subsequence, any supersequence of the current labels by today's label. -/
theorem daily_grow_labels_sublist (d : List DayEntry) (t : String)
    (acc : List String) (h : (d.map DayEntry.label).Sublist acc) :
    ((daily_grow d t).map DayEntry.label).Sublist (acc ++ [t]) := by
  unfold daily_grow
  rcases hlast : d.getLast? with _ | e
  · dsimp only
    rw [List.map_append]
    exact h.append_right _
  · dsimp only
    by_cases he : e.label = t
    · rw [if_pos he, daily_grow_bump_labels d e hlast]
      exact h.trans (List.sublist_append_left acc [t])
    · rw [if_neg he, List.map_append]
      exact h.append_right _

/-- Auxiliary: one `update_daily_data` call preserves distinctness of
adjacent labels. -/
theorem update_daily_chain (d : List DayEntry) (t : String)
    (h : List.Chain' (fun a b => a.label ≠ b.label) d) :
    List.Chain' (fun a b => a.label ≠ b.label) (update_daily_data d t) :=
  (daily_grow_chain d t h).suffix (List.drop_suffix _ _)

/-- Auxiliary: one `update_daily_data` call keeps the label sequence a
subsequence of the day labels seen so far. -/
theorem update_daily_labels_sublist (d : List DayEntry) (t : String)
    (acc : List String) (h : (d.map DayEntry.label).Sublist acc) :
    ((update_daily_data d t).map DayEntry.label).Sublist (acc ++ [t]) := by
  unfold update_daily_data
  rw [List.map_drop]
  exact (List.drop_sublist _ _).trans (daily_grow_labels_sublist d t acc h)

/-- Auxiliary: the three daily-activity invariants carried through any
sequence of completed games. -/
theorem update_daily_many_inv :
    ∀ (l : List String) (d : List DayEntry) (acc : List String),
    d.length ≤ 14 →
    List.Chain' (fun a b => a.label ≠ b.label) d →
    (d.map DayEntry.label).Sublist acc →
    (update_daily_many d l).length ≤ 14 ∧
    List.Chain' (fun a b => a.label ≠ b.label) (update_daily_many d l) ∧
    ((update_daily_many d l).map DayEntry.label).Sublist (acc ++ l)
  | [], d, acc, h1, h2, h3 => by
      rw [update_daily_many]
      simpa using ⟨h1, h2, h3⟩
  | t :: ts, d, acc, h1, h2, h3 => by
      have ih := update_daily_many_inv ts (update_daily_data d t) (acc ++ [t])
        (update_daily_length d t) (update_daily_chain d t h2)
        (update_daily_labels_sublist d t acc h3)
      rw [update_daily_many]
      simpa [List.append_assoc] using ih

/-- C5 counterexample: completed games on the day labels `"01/01"`,
`"02/01"`, `"01/01"` (e.g. January 1, January 2, and January 1 of the
following year — the `"%d/%m"` labels carry no year, and the cap keeps the
last 14 entries, not the last 14 distinct labels) leave `daily_data` with
two separate entries labelled `"01/01"`, so the claimed "at most one entry
per distinct date label" fails. -/
theorem c5_counterexample :
    update_daily_many [] ["01/01", "02/01", "01/01"] =
      [{ label := "01/01", count := 1 }, { label := "02/01", count := 1 },
        { label := "01/01", count := 1 }] ∧
    ¬ ((update_daily_many [] ["01/01", "02/01", "01/01"]).map
        DayEntry.label).Nodup := by
  decide

/-- C5 (amended): after any sequence of completed games, `daily_activity`
has at most 14 entries, no two ADJACENT entries share a date label (a
label may recur non-adjacently when the year-less `"%d/%m"` label of a
later game repeats an older one), and the entry labels appear in
chronological order: they form an in-order subsequence of the day labels
of the completed games. -/
theorem c5_daily_activity (todays : List String) :
    (update_daily_many [] todays).length ≤ 14 ∧
    List.Chain' (fun a b => a.label ≠ b.label) (update_daily_many [] todays) ∧
    ((update_daily_many [] todays).map DayEntry.label).Sublist todays := by
  have h := update_daily_many_inv todays [] [] (by simp) List.chain'_nil (by simp)
  simpa using h

/-- Auxiliary: a successful parse attempt means the cleaned text parsed to
a member of the legal-move list. -/
theorem attempt_parse_eq_some {σ μ : Type} [DecidableEq μ] {api : BoardAPI σ μ}
    {b : σ} {text : String} {m : μ} (h : attempt_parse api b text = some m) :
    api.parse_san b (clean_move text) = some m ∧ m ∈ api.legal_moves b := by
  unfold attempt_parse at h
  rcases hp : api.parse_san b (clean_move text) with _ | m2
  · rw [hp] at h
    exact absurd h (by simp)
  · rw [hp] at h
    dsimp only at h
    by_cases hm : m2 ∈ api.legal_moves b
    · rw [if_pos hm] at h
      have h2 : m2 = m := Option.some_inj.mp h
      subst h2
      exact ⟨rfl, hm⟩
    · rw [if_neg hm] at h
      exact absurd h (by simp)

/-- Auxiliary: a retry-loop iteration whose parse attempt succeeds returns
at once with the cleaned text and the parsed move pushed. -/
theorem play_move_aux_hit {σ μ : Type} [DecidableEq μ] (api : BoardAPI σ μ)
    (b : σ) (src : Nat → Except Unit Query) (randIdx fuel : Nat) (text : String)
    (qMade : Nat) (parsed : List String) (think : ThinkStat) (saves : Nat)
    (m : μ) (h : attempt_parse api b text = some m) :
    play_move_aux api b src randIdx (fuel + 1) text qMade parsed think saves =
      Except.ok { san := clean_move text
                  fromSq := (api.uci m).take 2
                  toSq := ((api.uci m).drop 2).take 2
                  board := api.push b m
                  applied := m
                  parsedTexts := parsed ++ [text]
                  queriesMade := qMade
                  fallbackUsed := false
                  think := think
                  saves := saves } := by
  simp only [play_move_aux]
  rw [h]

/-- Auxiliary: a retry-loop iteration whose parse attempt fails and whose
re-query succeeds recurses on the fresh proposal, having recorded the
query's think time (one more `save_state`). -/
theorem play_move_aux_miss {σ μ : Type} [DecidableEq μ] (api : BoardAPI σ μ)
    (b : σ) (src : Nat → Except Unit Query) (randIdx fuel : Nat) (text : String)
    (qMade : Nat) (parsed : List String) (think : ThinkStat) (saves : Nat)
    (q : Query) (h : attempt_parse api b text = none)
    (hq : src qMade = Except.ok q) :
    play_move_aux api b src randIdx (fuel + 1) text qMade parsed think saves =
      play_move_aux api b src randIdx fuel q.text (qMade + 1) (parsed ++ [text])
        (record_think think q.elapsed q.now) (saves + 1) := by
  conv_lhs => rw [play_move_aux]
  rw [h, hq]

/-- Auxiliary: a retry-loop iteration whose parse attempt fails and whose
re-query raises propagates the transport failure. -/
theorem play_move_aux_miss_fail {σ μ : Type} [DecidableEq μ] (api : BoardAPI σ μ)
    (b : σ) (src : Nat → Except Unit Query) (randIdx fuel : Nat) (text : String)
    (qMade : Nat) (parsed : List String) (think : ThinkStat) (saves : Nat)
    (h : attempt_parse api b text = none) (hq : src qMade = Except.error ()) :
    play_move_aux api b src randIdx (fuel + 1) text qMade parsed think saves =
      Except.error (.sourceFail think saves qMade) := by
  conv_lhs => rw [play_move_aux]
  rw [h, hq]

/-- Auxiliary: with the attempts exhausted, the random fallback applies the
indexed legal move; the current proposal text is not parsed. -/
theorem play_move_aux_fallback {σ μ : Type} [DecidableEq μ] (api : BoardAPI σ μ)
    (b : σ) (src : Nat → Except Unit Query) (randIdx : Nat) (text : String)
    (qMade : Nat) (parsed : List String) (think : ThinkStat) (saves : Nat)
    (m : μ)
    (hm : (api.legal_moves b)[randIdx % (api.legal_moves b).length]? = some m) :
    play_move_aux api b src randIdx 0 text qMade parsed think saves =
      Except.ok { san := api.san b m
                  fromSq := (api.uci m).take 2
                  toSq := ((api.uci m).drop 2).take 2
                  board := api.push b m
                  applied := m
                  parsedTexts := parsed
                  queriesMade := qMade
                  fallbackUsed := true
                  think := think
                  saves := saves } := by
  conv_lhs => rw [play_move_aux]
  rw [hm]

/-- C2: a proposal whose cleaned text parses to a legal move of the
position is accepted on the first attempt: no re-query of the move source
is issued, exactly one parse attempt runs, the move is pushed onto the
board, and the returned squares are the first two and next two characters
of the move's UCI string (origin and destination in coordinate notation). -/
theorem c2_legal_first_attempt {σ μ : Type} [DecidableEq μ] (api : BoardAPI σ μ)
    (b : σ) (src : Nat → Except Unit Query) (randIdx : Nat) (text : String)
    (think : ThinkStat) (m : μ)
    (hp : api.parse_san b (clean_move text) = some m)
    (hl : m ∈ api.legal_moves b) :
    play_move api b src randIdx text think =
      Except.ok { san := clean_move text
                  fromSq := (api.uci m).take 2
                  toSq := ((api.uci m).drop 2).take 2
                  board := api.push b m
                  applied := m
                  parsedTexts := [text]
                  queriesMade := 0
                  fallbackUsed := false
                  think := think
                  saves := 0 } := by
  have hap : attempt_parse api b text = some m := by
    simp [attempt_parse, hp, hl]
  have h := play_move_aux_hit api b src randIdx 2 text 0 [] think 0 m hap
  simpa [play_move] using h

/-- Witness for C2 on the toy adapter: the proposal `"e4!"` cleans to
`"e4"`, which parses to the legal move `"e2e4"` and is played at once. -/
theorem c2_legal_first_attempt_witness :
    play_move toyAPI [] (constSrc { text := "zz", elapsed := 5, now := 1000 })
        0 "e4!" think_init =
      Except.ok { san := clean_move "e4!"
                  fromSq := (toyAPI.uci "e2e4").take 2
                  toSq := ((toyAPI.uci "e2e4").drop 2).take 2
                  board := toyAPI.push [] "e2e4"
                  applied := "e2e4"
                  parsedTexts := ["e4!"]
                  queriesMade := 0
                  fallbackUsed := false
                  think := think_init
                  saves := 0 } :=
  c2_legal_first_attempt toyAPI []
    (constSrc { text := "zz", elapsed := 5, now := 1000 }) 0 "e4!" think_init
    "e2e4" (by decide) (by decide)

/-- C10: when all three parse attempts are rejected, `play_move` still
issues a third move-source query after the last failed attempt; its answer
`q2` is discarded — the parse attempts consumed exactly the caller's text
and the first two re-query answers — yet its think time is recorded (the
final think record folds in `q2`) and persisted (three `save_state` calls,
one per recorded query) before the random fallback applies a legal move. -/
theorem c10_discarded_final_query {σ μ : Type} [DecidableEq μ]
    (api : BoardAPI σ μ) (b : σ) (src : Nat → Except Unit Query)
    (randIdx : Nat) (text : String) (think : ThinkStat) (q0 q1 q2 : Query)
    (m : μ)
    (h0 : attempt_parse api b text = none)
    (hs0 : src 0 = Except.ok q0)
    (h1 : attempt_parse api b q0.text = none)
    (hs1 : src 1 = Except.ok q1)
    (h2 : attempt_parse api b q1.text = none)
    (hs2 : src 2 = Except.ok q2)
    (hm : (api.legal_moves b)[randIdx % (api.legal_moves b).length]? = some m) :
    play_move api b src randIdx text think =
      Except.ok { san := api.san b m
                  fromSq := (api.uci m).take 2
                  toSq := ((api.uci m).drop 2).take 2
                  board := api.push b m
                  applied := m
                  parsedTexts := [text, q0.text, q1.text]
                  queriesMade := 3
                  fallbackUsed := true
                  think := record_think
                    (record_think (record_think think q0.elapsed q0.now)
                      q1.elapsed q1.now) q2.elapsed q2.now
                  saves := 3 } := by
  have s1 := play_move_aux_miss api b src randIdx 2 text 0 [] think 0 q0 h0 hs0
  have s2 := play_move_aux_miss api b src randIdx 1 q0.text 1 [text]
    (record_think think q0.elapsed q0.now) 1 q1 h1 hs1
  have s3 := play_move_aux_miss api b src randIdx 0 q1.text 2 [text, q0.text]
    (record_think (record_think think q0.elapsed q0.now) q1.elapsed q1.now) 2
    q2 h2 hs2
  have s4 := play_move_aux_fallback api b src randIdx q2.text 3
    [text, q0.text, q1.text]
    (record_think (record_think (record_think think q0.elapsed q0.now)
      q1.elapsed q1.now) q2.elapsed q2.now) 3 m hm
  exact s1.trans (s2.trans (s3.trans s4))

/-- Witness for C10 on the toy adapter: the caller's `"xx"` and the
re-queried `"ax"`, `"bx"` are rejected; the third query `"cx"` is never
parsed but its think time lands in the final record; the fallback plays
the first legal move. -/
theorem c10_discarded_final_query_witness :
    play_move toyAPI [] srcABC 0 "xx" think_init =
      Except.ok { san := toyAPI.san [] "e2e4"
                  fromSq := (toyAPI.uci "e2e4").take 2
                  toSq := ((toyAPI.uci "e2e4").drop 2).take 2
                  board := toyAPI.push [] "e2e4"
                  applied := "e2e4"
                  parsedTexts := ["xx", "ax", "bx"]
                  queriesMade := 3
                  fallbackUsed := true
                  think := record_think
                    (record_think (record_think think_init 1 10) 2 20) 3 30
                  saves := 3 } :=
  c10_discarded_final_query toyAPI [] srcABC 0 "xx" think_init
    { text := "ax", elapsed := 1, now := 10 }
    { text := "bx", elapsed := 2, now := 20 }
    { text := "cx", elapsed := 3, now := 30 }
    "e2e4" (by decide) rfl (by decide) rfl (by decide) rfl (by decide)

/-- Auxiliary: a non-empty list always yields a member at any index taken
modulo its length — the embedding of `random.choice`. -/
theorem choice_mem {α : Type} (l : List α) (k : Nat) (h : l ≠ []) :
    ∃ m, l[k % l.length]? = some m ∧ m ∈ l := by
  have hpos : 0 < l.length := List.length_pos.mpr h
  have hlt : k % l.length < l.length := Nat.mod_lt _ hpos
  exact ⟨l[k % l.length], List.getElem?_eq_getElem hlt, List.getElem_mem hlt⟩

/-- C1: on a position with a non-empty legal-move set and a responsive
move source, `play_move` always returns (structural recursion on the
attempt budget — it cannot loop), with at most 3 parse attempts performed,
and the returned record applies a member of the legal-move set to the
board; when every proposal is rejected, exactly 3 parse attempts and 3
re-queries happen and the random fallback supplies the move. -/
theorem c1_play_move_resolves {σ μ : Type} [DecidableEq μ] (api : BoardAPI σ μ)
    (b : σ) (src : Nat → Except Unit Query) (randIdx : Nat) (text : String)
    (think : ThinkStat) (hne : api.legal_moves b ≠ [])
    (hsrc : ∀ i, ∃ q, src i = Except.ok q) :
    ∃ r : PlayRecord σ μ,
      play_move api b src randIdx text think = Except.ok r ∧
      r.applied ∈ api.legal_moves b ∧
      r.board = api.push b r.applied ∧
      r.parsedTexts.length ≤ 3 ∧
      ((∀ s2, attempt_parse api b s2 = none) →
        r.fallbackUsed = true ∧ r.parsedTexts.length = 3 ∧ r.queriesMade = 3) := by
  obtain ⟨q0, hq0⟩ := hsrc 0
  obtain ⟨q1, hq1⟩ := hsrc 1
  obtain ⟨q2, hq2⟩ := hsrc 2
  obtain ⟨mf, hmf, hmfmem⟩ := choice_mem (api.legal_moves b) randIdx hne
  rcases h0 : attempt_parse api b text with _ | m0
  · rcases h1 : attempt_parse api b q0.text with _ | m1
    · rcases h2 : attempt_parse api b q1.text with _ | m2
      · -- all three attempts rejected: fallback
        have s1 := play_move_aux_miss api b src randIdx 2 text 0 [] think 0
          q0 h0 hq0
        have s2 := play_move_aux_miss api b src randIdx 1 q0.text 1 [text]
          (record_think think q0.elapsed q0.now) 1 q1 h1 hq1
        have s3 := play_move_aux_miss api b src randIdx 0 q1.text 2
          [text, q0.text]
          (record_think (record_think think q0.elapsed q0.now) q1.elapsed
            q1.now) 2 q2 h2 hq2
        have s4 := play_move_aux_fallback api b src randIdx q2.text 3
          [text, q0.text, q1.text]
          (record_think (record_think (record_think think q0.elapsed q0.now)
            q1.elapsed q1.now) q2.elapsed q2.now) 3 mf hmf
        refine ⟨_, s1.trans (s2.trans (s3.trans s4)), hmfmem, rfl, ?_, ?_⟩
        · simp
        · intro _
          exact ⟨rfl, by simp, rfl⟩
      · -- accepted at the third attempt
        have s1 := play_move_aux_miss api b src randIdx 2 text 0 [] think 0
          q0 h0 hq0
        have s2 := play_move_aux_miss api b src randIdx 1 q0.text 1 [text]
          (record_think think q0.elapsed q0.now) 1 q1 h1 hq1
        have s3 := play_move_aux_hit api b src randIdx 0 q1.text 2
          [text, q0.text]
          (record_think (record_think think q0.elapsed q0.now) q1.elapsed
            q1.now) 2 m2 h2
        refine ⟨_, s1.trans (s2.trans s3), (attempt_parse_eq_some h2).2, rfl,
          ?_, ?_⟩
        · simp
        · intro hall
          rw [hall q1.text] at h2
          exact absurd h2 (by simp)
    · -- accepted at the second attempt
      have s1 := play_move_aux_miss api b src randIdx 2 text 0 [] think 0
        q0 h0 hq0
      have s2 := play_move_aux_hit api b src randIdx 1 q0.text 1 [text]
        (record_think think q0.elapsed q0.now) 1 m1 h1
      refine ⟨_, s1.trans s2, (attempt_parse_eq_some h1).2, rfl, ?_, ?_⟩
      · simp
      · intro hall
        rw [hall q0.text] at h1
        exact absurd h1 (by simp)
  · -- accepted at the first attempt
    have s1 := play_move_aux_hit api b src randIdx 2 text 0 [] think 0 m0 h0
    refine ⟨_, s1, (attempt_parse_eq_some h0).2, rfl, ?_, ?_⟩
    · simp
    · intro hall
      rw [hall text] at h0
      exact absurd h0 (by simp)

/-- Witness for C1 on the toy adapter: the legal-move list is non-empty,
the source always answers, every proposal (`"xx"`, `"ax"`, `"bx"`, ...) is
rejected, and the fallback plays a legal move after exactly 3 attempts. -/
theorem c1_play_move_resolves_witness :
    ∃ r : PlayRecord (List String) String,
      play_move toyAPI [] srcABC 0 "xx" think_init = Except.ok r ∧
      r.applied ∈ toyAPI.legal_moves [] ∧
      r.board = toyAPI.push [] r.applied ∧
      r.parsedTexts.length ≤ 3 ∧
      ((∀ s2, attempt_parse toyAPI [] s2 = none) →
        r.fallbackUsed = true ∧ r.parsedTexts.length = 3 ∧ r.queriesMade = 3) :=
  c1_play_move_resolves toyAPI [] srcABC 0 "xx" think_init (by decide)
    (fun i => by
      unfold srcABC
      by_cases h0 : i = 0
      · exact ⟨_, by rw [if_pos h0]⟩
      · by_cases h1 : i = 1
        · exact ⟨_, by rw [if_neg h0, if_pos h1]⟩
        · exact ⟨_, by rw [if_neg h0, if_neg h1]⟩)

/-- C8: when the move-source call for a ply raises a transport error —
either the initial query or a re-query inside `play_move` — the loop
iteration ends in the `except` branch with `moved = false` (the same ply
will be retried after the fixed 10-second backoff), the board is
untouched, and the match state is exactly what the pre-attempt sync
produced: `fen` and `turn` as set before the query, and `moves`,
`total_moves` and `last_move` exactly as before the attempt. -/
theorem c8_transport_failure_no_mutation {σ μ : Type} [DecidableEq μ]
    (api : BoardAPI σ μ) (b : σ) (s : ArbState)
    (src : Nat → Except Unit Query) (randIdx : Nat) (think : ThinkStat) :
    API_ERROR_BACKOFF_SECONDS = 10 ∧
    (src 0 = Except.error () →
      loop_iter api b s src randIdx think =
        { st := sync_state api b s, board := b, think := think,
          moved := false }) ∧
    (∀ (q : Query) (t : ThinkStat) (sv qm : Nat),
      src 0 = Except.ok q →
      play_move api b (fun i => src (i + 1)) randIdx q.text
          (record_think think q.elapsed q.now)
        = Except.error (.sourceFail t sv qm) →
      loop_iter api b s src randIdx think =
        { st := sync_state api b s, board := b, think := t,
          moved := false }) ∧
    (∀ s2 : ArbState,
      (sync_state api b s2).moves = s2.moves ∧
      (sync_state api b s2).total_moves = s2.total_moves ∧
      (sync_state api b s2).last_move = s2.last_move) := by
  refine ⟨rfl, ?_, ?_, ?_⟩
  · intro h
    simp only [loop_iter, h]
  · intro q t sv qm hq hp
    simp only [loop_iter, hq, hp]
  · intro s2
    exact ⟨rfl, rfl, rfl⟩

/-- Witness for C8 on the toy adapter with an always-failing transport:
the iteration leaves the synced state, the board and the think record
unchanged and reports no move. -/
theorem c8_transport_failure_no_mutation_witness :
    API_ERROR_BACKOFF_SECONDS = 10 ∧
    (failSrc 0 = Except.error () →
      loop_iter toyAPI [] sampleState failSrc 0 think_init =
        { st := sync_state toyAPI [] sampleState, board := [],
          think := think_init, moved := false }) ∧
    (∀ (q : Query) (t : ThinkStat) (sv qm : Nat),
      failSrc 0 = Except.ok q →
      play_move toyAPI [] (fun i => failSrc (i + 1)) 0 q.text
          (record_think think_init q.elapsed q.now)
        = Except.error (.sourceFail t sv qm) →
      loop_iter toyAPI [] sampleState failSrc 0 think_init =
        { st := sync_state toyAPI [] sampleState, board := [],
          think := t, moved := false }) ∧
    (∀ s2 : ArbState,
      (sync_state toyAPI [] s2).moves = s2.moves ∧
      (sync_state toyAPI [] s2).total_moves = s2.total_moves ∧
      (sync_state toyAPI [] s2).last_move = s2.last_move) :=
  c8_transport_failure_no_mutation toyAPI [] sampleState failSrc 0 think_init

end ChessArbiter
